import Mathlib

/-!
Shallow embedding of `src/spl/src/dex/middleware.rs` (the Serum DEX proxy
middleware of the anchor repository): the request `Context`, the
`MarketMiddleware` handler interface and its three implementations
(`OpenOrdersPda`, `Logger`, `ReferralFees`), the seed-building helpers that
the two Rust seed construction forms expand to, the `ErrorCode` taxonomy,
and models of the parts of the pipeline that live outside this source file
(the dispatcher and the generated `InitAccount` account validation),
modelled from the specification where noted.

Machine integers are modelled as `Nat` (no arithmetic is performed on them
here), byte strings as `List Nat`, and the Solana `find_program_address`
primitive — an external cryptographic function — is threaded through as an
explicit function parameter `fpa`.  Rust `Vec` indexing is modelled with
`List.getD`; every theorem that relies on a slot existing carries the
corresponding length hypothesis, matching the positional schema under which
the Rust code is callable without panicking.
-/

namespace AnchorDex

/-- Public key of an account: its raw bytes (32 bytes on Solana; the length
plays no role in the middleware logic). -/
structure Pubkey where
  bytes : List Nat
deriving DecidableEq, Repr

instance : Inhabited Pubkey := ⟨⟨[]⟩⟩

/-- Account handle: the fields of `AccountInfo` that the middleware reads or
writes — the address, the signer flag, the writable flag and the owning
program. -/
structure AccountInfo where
  key : Pubkey
  is_signer : Bool
  is_writable : Bool
  owner : Pubkey
deriving DecidableEq, Repr

instance : Inhabited AccountInfo := ⟨⟨default, false, false, default⟩⟩

/-- Per request context (struct `Context` in the source): the program id, the
ordered account list, the remaining instruction payload, and the accumulated
list of signer seed sets. -/
structure Context where
  program_id : Pubkey
  accounts : List AccountInfo
  data : List Nat
  seeds : List (List (List Nat))
deriving DecidableEq, Repr

/-- Error taxonomy of the middleware (enum `ErrorCode` in the source). -/
inductive ErrorCode where
  | InvalidDexPid
  | InvalidInstruction
  | CannotUnpack
  | InvalidReferral
  | UnauthorizedUser
  | NotEnoughAccounts
deriving DecidableEq, Repr

/-- Result of one middleware handler: `none` is `Ok(())`, `some e` is the
error `e`.  Handlers receive the context by mutable reference, so the model
returns the (possibly mutated) context alongside the result. -/
abbrev ProgramResult := Option ErrorCode

/-- Signature of Solana's `Pubkey::find_program_address`: from a seed list
and a program id it returns the derived address together with the canonical
bump.  It is an external cryptographic primitive, passed in as a parameter. -/
abbrev Fpa := List (List Nat) → Pubkey → Pubkey × Nat

/-- Byte string of the literal tag `b"open-orders"`. -/
def openOrdersTag : List Nat := "open-orders".toList.map Char.toNat

/-- Byte string of the literal tag `b"open-orders-init"`. -/
def openOrdersInitTag : List Nat := "open-orders-init".toList.map Char.toNat

/-- Seed set built by the bump-supplied form of `open_orders_authority!`:
`[b"open-orders", market, authority, [bump]]`. -/
def open_orders_authority_seeds_with_bump (market authority : Pubkey) (bump : Nat) :
    List (List Nat) :=
  [openOrdersTag, market.bytes, authority.bytes, [bump]]

/-- Seed set built by the no-bump form of `open_orders_authority!`: the same
four components, the bump recomputed on demand as
`find_program_address([b"open-orders", market, authority], program).1`. -/
def open_orders_authority_seeds (fpa : Fpa) (program market authority : Pubkey) :
    List (List Nat) :=
  [openOrdersTag, market.bytes, authority.bytes,
    [(fpa [openOrdersTag, market.bytes, authority.bytes] program).2]]

/-- Seed set built by the bump-supplied form of `open_orders_init_authority!`:
`[b"open-orders-init", market, [bump]]`. -/
def open_orders_init_authority_seeds_with_bump (market : Pubkey) (bump : Nat) :
    List (List Nat) :=
  [openOrdersInitTag, market.bytes, [bump]]

namespace OpenOrdersPda

/-- Function `OpenOrdersPda::prepare_pda`: clone the account handle and set
its signer flag. -/
def prepare_pda (acc : AccountInfo) : AccountInfo :=
  { acc with is_signer := true }

end OpenOrdersPda

/-- Modelled from the spec: the account validation generated from the
`#[derive(Accounts)]` struct `InitAccount` (the codegen lives elsewhere in
this repository, outside `src/`).  Per the spec, InitAccount "requires the
first two slots be the venue program handle and the system allocator handle",
the caller slot "must carry the is-signer flag already, else fail with
UnauthorizedUser", under-supply yields `NotEnoughAccounts`, and a venue
program handle mismatch yields `InvalidDexPid`.  The actual storage
allocation, the rent sysvar and the PDA seed re-checks are delegated to the
external allocation collaborator and are not modelled.  The spec fixes no
order among distinct validation failures; the model checks the account
count, then the caller signer flag, then the venue program handle. -/
def InitAccount.try_accounts (accounts : List AccountInfo) (dexID : Pubkey) :
    ProgramResult :=
  if accounts.length < 7 then some ErrorCode.NotEnoughAccounts
  else if (accounts.getD 3 default).is_signer = false then
    some ErrorCode.UnauthorizedUser
  else if (accounts.getD 0 default).key ≠ dexID then
    some ErrorCode.InvalidDexPid
  else none

namespace OpenOrdersPda

/-- Handler `OpenOrdersPda::init_open_orders`.  Reads the market from slot 4
and the user from slot 3, recomputes the two canonical bumps, validates the
accounts through `InitAccount::try_accounts`, pushes the two seed sets,
drops the two leading slots, overwrites the (post-drop) slot 1 with a signed
copy of slot 0 and sets the signer flag of slot 4. -/
def init_open_orders (fpa : Fpa) (dexID : Pubkey) (ctx : Context) :
    Context × ProgramResult :=
  let market := ctx.accounts.getD 4 default
  let user := ctx.accounts.getD 3 default
  let bump :=
    (fpa [openOrdersTag, market.key.bytes, user.key.bytes] ctx.program_id).2
  let bump_init :=
    (fpa [openOrdersInitTag, (ctx.accounts.getD 4 default).key.bytes]
      ctx.program_id).2
  match InitAccount.try_accounts ctx.accounts dexID with
  | some e => (ctx, some e)
  | none =>
    let seeds2 := ctx.seeds ++
      [open_orders_authority_seeds_with_bump market.key user.key bump,
       open_orders_init_authority_seeds_with_bump market.key bump_init]
    let accounts2 := ctx.accounts.drop 2
    let accounts3 := accounts2.set 1 (prepare_pda (accounts2.getD 0 default))
    let accounts4 := accounts3.set 4
      { accounts3.getD 4 default with is_signer := true }
    ({ ctx with accounts := accounts4, seeds := seeds2 }, none)

/-- Handler `OpenOrdersPda::new_order_v3`: market is slot 0, user is slot 7;
fail with `UnauthorizedUser` unless the user slot is signed; push the
recomputed open-orders authority seed set; overwrite slot 7 with a signed
copy of slot 1. -/
def new_order_v3 (fpa : Fpa) (ctx : Context) : Context × ProgramResult :=
  let market := ctx.accounts.getD 0 default
  let user := ctx.accounts.getD 7 default
  if user.is_signer = false then (ctx, some ErrorCode.UnauthorizedUser)
  else
    let seeds2 := ctx.seeds ++
      [open_orders_authority_seeds fpa ctx.program_id market.key user.key]
    let accounts2 := ctx.accounts.set 7 (prepare_pda (ctx.accounts.getD 1 default))
    ({ ctx with accounts := accounts2, seeds := seeds2 }, none)

/-- Handler `OpenOrdersPda::cancel_order_v2`: market is slot 0, user is slot
4; fail with `UnauthorizedUser` unless the user slot is signed; push the
recomputed seed set; overwrite slot 4 with a signed copy of slot 3. -/
def cancel_order_v2 (fpa : Fpa) (ctx : Context) : Context × ProgramResult :=
  let market := ctx.accounts.getD 0 default
  let user := ctx.accounts.getD 4 default
  if user.is_signer = false then (ctx, some ErrorCode.UnauthorizedUser)
  else
    let seeds2 := ctx.seeds ++
      [open_orders_authority_seeds fpa ctx.program_id market.key user.key]
    let accounts2 := ctx.accounts.set 4 (prepare_pda (ctx.accounts.getD 3 default))
    ({ ctx with accounts := accounts2, seeds := seeds2 }, none)

/-- Handler `OpenOrdersPda::cancel_order_by_client_id_v2`: identical slot
schema to `cancel_order_v2` (market slot 0, user slot 4, custody slot 3). -/
def cancel_order_by_client_id_v2 (fpa : Fpa) (ctx : Context) :
    Context × ProgramResult :=
  let market := ctx.accounts.getD 0 default
  let user := ctx.accounts.getD 4 default
  if user.is_signer = false then (ctx, some ErrorCode.UnauthorizedUser)
  else
    let seeds2 := ctx.seeds ++
      [open_orders_authority_seeds fpa ctx.program_id market.key user.key]
    let accounts2 := ctx.accounts.set 4 (prepare_pda (ctx.accounts.getD 3 default))
    ({ ctx with accounts := accounts2, seeds := seeds2 }, none)

/-- Handler `OpenOrdersPda::settle_funds`: market is slot 0, user is slot 2;
fail with `UnauthorizedUser` unless the user slot is signed; push the
recomputed seed set; overwrite slot 2 with a signed copy of slot 1. -/
def settle_funds (fpa : Fpa) (ctx : Context) : Context × ProgramResult :=
  let market := ctx.accounts.getD 0 default
  let user := ctx.accounts.getD 2 default
  if user.is_signer = false then (ctx, some ErrorCode.UnauthorizedUser)
  else
    let seeds2 := ctx.seeds ++
      [open_orders_authority_seeds fpa ctx.program_id market.key user.key]
    let accounts2 := ctx.accounts.set 2 (prepare_pda (ctx.accounts.getD 1 default))
    ({ ctx with accounts := accounts2, seeds := seeds2 }, none)

/-- Handler `OpenOrdersPda::close_open_orders`: market is slot 3, user is
slot 1; fail with `UnauthorizedUser` unless the user slot is signed; push
the recomputed seed set; overwrite slot 1 with a signed copy of slot 0. -/
def close_open_orders (fpa : Fpa) (ctx : Context) : Context × ProgramResult :=
  let market := ctx.accounts.getD 3 default
  let user := ctx.accounts.getD 1 default
  if user.is_signer = false then (ctx, some ErrorCode.UnauthorizedUser)
  else
    let seeds2 := ctx.seeds ++
      [open_orders_authority_seeds fpa ctx.program_id market.key user.key]
    let accounts2 := ctx.accounts.set 1 (prepare_pda (ctx.accounts.getD 0 default))
    ({ ctx with accounts := accounts2, seeds := seeds2 }, none)

end OpenOrdersPda

/-- Payload of a decoded `NewOrderInstructionV3` (external `serum_dex` type;
its fields are opaque to the middleware, which only forwards it). -/
structure NewOrderInstructionV3 where
  payload : List Nat
deriving DecidableEq, Repr

/-- Payload of a decoded `CancelOrderInstructionV2` (external `serum_dex`
type; opaque to the middleware). -/
structure CancelOrderInstructionV2 where
  payload : List Nat
deriving DecidableEq, Repr

/-- Decoded instruction tag: the six request kinds the proxy dispatches on. -/
inductive Instruction where
  | InitOpenOrders
  | NewOrderV3 (ix : NewOrderInstructionV3)
  | CancelOrderV2 (ix : CancelOrderInstructionV2)
  | CancelOrderByClientIdV2 (client_id : Nat)
  | SettleFunds
  | CloseOpenOrders
deriving DecidableEq, Repr

/-- The `MarketMiddleware` trait: one handler per request kind plus a
fallback, each defaulting to a no-op success, exactly as the trait's default
method bodies. -/
structure MarketMiddleware where
  init_open_orders : Context → Context × ProgramResult := fun ctx => (ctx, none)
  new_order_v3 : Context → NewOrderInstructionV3 → Context × ProgramResult :=
    fun ctx _ => (ctx, none)
  cancel_order_v2 : Context → CancelOrderInstructionV2 → Context × ProgramResult :=
    fun ctx _ => (ctx, none)
  cancel_order_by_client_id_v2 : Context → Nat → Context × ProgramResult :=
    fun ctx _ => (ctx, none)
  settle_funds : Context → Context × ProgramResult := fun ctx => (ctx, none)
  close_open_orders : Context → Context × ProgramResult := fun ctx => (ctx, none)
  fallback : Context → Context × ProgramResult := fun ctx => (ctx, none)

/-- The `OpenOrdersPda` middleware as a `MarketMiddleware` value. -/
def OpenOrdersPda.mw (fpa : Fpa) (dexID : Pubkey) : MarketMiddleware where
  init_open_orders := OpenOrdersPda.init_open_orders fpa dexID
  new_order_v3 := fun ctx _ => OpenOrdersPda.new_order_v3 fpa ctx
  cancel_order_v2 := fun ctx _ => OpenOrdersPda.cancel_order_v2 fpa ctx
  cancel_order_by_client_id_v2 := fun ctx _ =>
    OpenOrdersPda.cancel_order_by_client_id_v2 fpa ctx
  settle_funds := OpenOrdersPda.settle_funds fpa
  close_open_orders := OpenOrdersPda.close_open_orders fpa

/-- The `Logger` middleware: every handler emits a log line (an external
side effect outside the model) and returns `Ok(())` without touching the
context. -/
def Logger.mw : MarketMiddleware where
  init_open_orders := fun ctx => (ctx, none)
  new_order_v3 := fun ctx _ => (ctx, none)
  cancel_order_v2 := fun ctx _ => (ctx, none)
  cancel_order_by_client_id_v2 := fun ctx _ => (ctx, none)
  settle_funds := fun ctx => (ctx, none)
  close_open_orders := fun ctx => (ctx, none)

/-- The `ReferralFees` middleware state: the configured beneficiary. -/
structure ReferralFees where
  referral : Pubkey
deriving DecidableEq, Repr

/-- Handler `ReferralFees::settle_funds`: binds the beneficiary slot
(accounts[9]); the enforcement flag is the literal `false` in the source, so
the `require!` comparison against the configured beneficiary is never
executed and the handler returns `Ok(())`. -/
def ReferralFees.settle_funds (self : ReferralFees) (ctx : Context) :
    Context × ProgramResult :=
  let referral := ctx.accounts.getD 9 default
  let enabled := false
  if enabled then
    if referral.key = self.referral then (ctx, none)
    else (ctx, some ErrorCode.InvalidReferral)
  else (ctx, none)

/-- The `ReferralFees` middleware as a `MarketMiddleware` value: only
`settle_funds` is overridden. -/
def ReferralFees.mw (self : ReferralFees) : MarketMiddleware where
  settle_funds := self.settle_funds

/-- Route one decoded instruction to the matching handler of one
middleware. -/
def dispatchOne (mw : MarketMiddleware) (ctx : Context) :
    Instruction → Context × ProgramResult
  | Instruction.InitOpenOrders => mw.init_open_orders ctx
  | Instruction.NewOrderV3 ix => mw.new_order_v3 ctx ix
  | Instruction.CancelOrderV2 ix => mw.cancel_order_v2 ctx ix
  | Instruction.CancelOrderByClientIdV2 cid =>
      mw.cancel_order_by_client_id_v2 ctx cid
  | Instruction.SettleFunds => mw.settle_funds ctx
  | Instruction.CloseOpenOrders => mw.close_open_orders ctx

/-- Modelled from the spec: the middleware chain runner of the dispatcher
(which lives elsewhere in this repository, outside `src/`).  For the decoded
tag it invokes the matching handler on each registered middleware in
registration order over the shared context; any error aborts the chain
immediately. -/
def runChain : List MarketMiddleware → Context → Instruction →
    Context × ProgramResult
  | [], ctx, _ => (ctx, none)
  | mw :: rest, ctx, ix =>
    match dispatchOne mw ctx ix with
    | (ctx2, some e) => (ctx2, some e)
    | (ctx2, none) => runChain rest ctx2 ix

/-- Modelled from the spec: the number of account slots each request kind's
positional schema requires — one more than the largest slot index of the
kind's fixed positional contract (8 for NewOrderV3, 3 for SettleFunds, and
so on), 7 for InitAccount's seven-field account struct. -/
def requiredAccounts : Instruction → Nat
  | Instruction.InitOpenOrders => 7
  | Instruction.NewOrderV3 _ => 8
  | Instruction.CancelOrderV2 _ => 5
  | Instruction.CancelOrderByClientIdV2 _ => 5
  | Instruction.SettleFunds => 3
  | Instruction.CloseOpenOrders => 4

/-- Modelled from the spec: the dispatcher entry point (outside `src/`).
Supplying fewer account slots than the decoded request kind's schema
requires yields `NotEnoughAccounts` before any middleware runs, hence
before any middleware mutation of the context; otherwise the middleware
chain runs in registration order. -/
def MarketProxy.run (mws : List MarketMiddleware) (ctx : Context)
    (ix : Instruction) : Context × ProgramResult :=
  if ctx.accounts.length < requiredAccounts ix then
    (ctx, some ErrorCode.NotEnoughAccounts)
  else runChain mws ctx ix

/-! Concrete fixtures used by witnesses and counterexamples. -/

/-- Concrete instantiation of `find_program_address` for witnesses: every
derivation yields the address `[7]` with canonical bump `255`. -/
def fpaC : Fpa := fun _ _ => (⟨[7]⟩, 255)

/-- Build a concrete account handle with a one-byte key. -/
def mkAcct (k : Nat) (s : Bool) : AccountInfo :=
  { key := ⟨[k]⟩, is_signer := s, is_writable := false, owner := ⟨[0]⟩ }

/-- Concrete context with ten account slots, none of them signed. -/
def ctxUnsigned : Context :=
  { program_id := ⟨[1]⟩
    accounts := [mkAcct 10 false, mkAcct 11 false, mkAcct 12 false,
      mkAcct 13 false, mkAcct 14 false, mkAcct 15 false, mkAcct 16 false,
      mkAcct 17 false, mkAcct 18 false, mkAcct 19 false]
    data := [3, 4]
    seeds := [] }

/-- Concrete context with ten account slots, all of them signed. -/
def ctxSigned : Context :=
  { program_id := ⟨[1]⟩
    accounts := [mkAcct 10 true, mkAcct 11 true, mkAcct 12 true,
      mkAcct 13 true, mkAcct 14 true, mkAcct 15 true, mkAcct 16 true,
      mkAcct 17 true, mkAcct 18 true, mkAcct 19 true]
    data := [3, 4]
    seeds := [] }

/-- Concrete venue (DEX) program id for the InitAccount fixtures. -/
def dexIDC : Pubkey := ⟨[99]⟩

/-- Concrete seven-slot InitAccount context: slot 0 is the venue program,
slot 3 (the caller) is signed, nothing else is signed. -/
def ctxInit : Context :=
  { program_id := ⟨[1]⟩
    accounts := [mkAcct 99 false, mkAcct 20 false, mkAcct 21 false,
      mkAcct 22 true, mkAcct 23 false, mkAcct 24 false, mkAcct 25 false]
    data := [3, 4]
    seeds := [[[8]]] }

/-- Concrete seven-slot InitAccount context whose caller slot (3) is not
signed. -/
def ctxInitUnsigned : Context :=
  { program_id := ⟨[1]⟩
    accounts := [mkAcct 99 false, mkAcct 20 false, mkAcct 21 false,
      mkAcct 22 false, mkAcct 23 false, mkAcct 24 false, mkAcct 25 false]
    data := [3, 4]
    seeds := [] }

/-- Concrete context with only two account slots. -/
def ctxShort : Context :=
  { program_id := ⟨[1]⟩
    accounts := [mkAcct 10 true, mkAcct 11 true]
    data := [3, 4]
    seeds := [] }

/-- Concrete referral middleware state; its beneficiary `[42]` matches no
slot of `ctxSigned`. -/
def referralC : ReferralFees := { referral := ⟨[42]⟩ }

/-! Helper lemmas: the successful-path shape of each non-init handler, and
generic frame facts about `List.set`. -/

/-- On a signed caller slot, `new_order_v3` succeeds, appends its seed set
and overwrites slot 7 with a signed copy of slot 1. -/
theorem new_order_v3_eq_of_signer (fpa : Fpa) (ctx : Context)
    (h : (ctx.accounts.getD 7 default).is_signer = true) :
    OpenOrdersPda.new_order_v3 fpa ctx =
      ({ ctx with
          accounts := ctx.accounts.set 7
            (OpenOrdersPda.prepare_pda (ctx.accounts.getD 1 default))
          seeds := ctx.seeds ++
            [open_orders_authority_seeds fpa ctx.program_id
              (ctx.accounts.getD 0 default).key
              (ctx.accounts.getD 7 default).key] }, none) := by
  simp only [List.getD_eq_getElem?_getD] at h
  simp [OpenOrdersPda.new_order_v3, h]

/-- On a signed caller slot, `cancel_order_v2` succeeds, appends its seed
set and overwrites slot 4 with a signed copy of slot 3. -/
theorem cancel_order_v2_eq_of_signer (fpa : Fpa) (ctx : Context)
    (h : (ctx.accounts.getD 4 default).is_signer = true) :
    OpenOrdersPda.cancel_order_v2 fpa ctx =
      ({ ctx with
          accounts := ctx.accounts.set 4
            (OpenOrdersPda.prepare_pda (ctx.accounts.getD 3 default))
          seeds := ctx.seeds ++
            [open_orders_authority_seeds fpa ctx.program_id
              (ctx.accounts.getD 0 default).key
              (ctx.accounts.getD 4 default).key] }, none) := by
  simp only [List.getD_eq_getElem?_getD] at h
  simp [OpenOrdersPda.cancel_order_v2, h]

/-- On a signed caller slot, `cancel_order_by_client_id_v2` succeeds,
appends its seed set and overwrites slot 4 with a signed copy of slot 3. -/
theorem cancel_order_by_client_id_v2_eq_of_signer (fpa : Fpa) (ctx : Context)
    (h : (ctx.accounts.getD 4 default).is_signer = true) :
    OpenOrdersPda.cancel_order_by_client_id_v2 fpa ctx =
      ({ ctx with
          accounts := ctx.accounts.set 4
            (OpenOrdersPda.prepare_pda (ctx.accounts.getD 3 default))
          seeds := ctx.seeds ++
            [open_orders_authority_seeds fpa ctx.program_id
              (ctx.accounts.getD 0 default).key
              (ctx.accounts.getD 4 default).key] }, none) := by
  simp only [List.getD_eq_getElem?_getD] at h
  simp [OpenOrdersPda.cancel_order_by_client_id_v2, h]

/-- On a signed caller slot, `settle_funds` succeeds, appends its seed set
and overwrites slot 2 with a signed copy of slot 1. -/
theorem settle_funds_eq_of_signer (fpa : Fpa) (ctx : Context)
    (h : (ctx.accounts.getD 2 default).is_signer = true) :
    OpenOrdersPda.settle_funds fpa ctx =
      ({ ctx with
          accounts := ctx.accounts.set 2
            (OpenOrdersPda.prepare_pda (ctx.accounts.getD 1 default))
          seeds := ctx.seeds ++
            [open_orders_authority_seeds fpa ctx.program_id
              (ctx.accounts.getD 0 default).key
              (ctx.accounts.getD 2 default).key] }, none) := by
  simp only [List.getD_eq_getElem?_getD] at h
  simp [OpenOrdersPda.settle_funds, h]

/-- On a signed caller slot, `close_open_orders` succeeds, appends its seed
set and overwrites slot 1 with a signed copy of slot 0. -/
theorem close_open_orders_eq_of_signer (fpa : Fpa) (ctx : Context)
    (h : (ctx.accounts.getD 1 default).is_signer = true) :
    OpenOrdersPda.close_open_orders fpa ctx =
      ({ ctx with
          accounts := ctx.accounts.set 1
            (OpenOrdersPda.prepare_pda (ctx.accounts.getD 0 default))
          seeds := ctx.seeds ++
            [open_orders_authority_seeds fpa ctx.program_id
              (ctx.accounts.getD 3 default).key
              (ctx.accounts.getD 1 default).key] }, none) := by
  simp only [List.getD_eq_getElem?_getD] at h
  simp [OpenOrdersPda.close_open_orders, h]

/-- Reading any slot other than the updated one through `getD` is unchanged
by `List.set`. -/
theorem getD_set_ne (l : List AccountInfo) (j i : Nat) (x : AccountInfo)
    (h : i ≠ j) : (l.set j x).getD i default = l.getD i default := by
  simp [List.getD_eq_getElem?_getD, List.getElem?_set_ne (Ne.symm h)]

/-- Frame predicate for one successful non-init substitution with designated
slot `j`: success, program id, payload and account-list length preserved,
every slot other than `j` unchanged, and the seed list extended by exactly
one appended seed set. -/
def framePreserved (r : Context × ProgramResult) (ctx : Context) (j : Nat) :
    Prop :=
  r.2 = none ∧
  r.1.program_id = ctx.program_id ∧
  r.1.data = ctx.data ∧
  r.1.accounts.length = ctx.accounts.length ∧
  (∀ i, i ≠ j → r.1.accounts.getD i default = ctx.accounts.getD i default) ∧
  ∃ s, r.1.seeds = ctx.seeds ++ [s]

/-- The result shape produced by every successful non-init handler satisfies
the frame predicate on its designated slot. -/
theorem framePreserved_of_set (ctx : Context) (j : Nat) (x : AccountInfo)
    (s : List (List Nat)) :
    framePreserved
      ({ ctx with accounts := ctx.accounts.set j x, seeds := ctx.seeds ++ [s] },
        none) ctx j := by
  refine ⟨rfl, rfl, rfl, List.length_set .., fun i hi => ?_, ⟨s, rfl⟩⟩
  exact getD_set_ne ctx.accounts j i x hi

/-- Reading through `getD` after `List.drop` shifts the index. -/
theorem getD_drop (l : List AccountInfo) (n i : Nat) :
    (l.drop n).getD i default = l.getD (n + i) default := by
  simp [List.getD_eq_getElem?_getD, List.getElem?_drop]

/-- Reading the updated slot through `getD` after an in-bounds `List.set`
returns the new value. -/
theorem getD_set_self (l : List AccountInfo) (j : Nat) (x : AccountInfo)
    (h : j < l.length) : (l.set j x).getD j default = x := by
  simp [List.getD_eq_getElem?_getD, List.getElem?_set_eq_of_lt x h]

/-- Success of the spec-modelled InitAccount validation requires at least
the seven schema slots. -/
theorem try_accounts_ok_length (accounts : List AccountInfo) (dexID : Pubkey)
    (h : InitAccount.try_accounts accounts dexID = none) :
    7 ≤ accounts.length := by
  by_contra hc
  simp [InitAccount.try_accounts, Nat.lt_of_not_le hc] at h

/-- Shape of a successful `init_open_orders` run: the two seed sets are
appended and the account list is dropped by two, slot 1 overwritten with a
signed copy of slot 0 and slot 4 signer-marked. -/
theorem init_open_orders_eq_of_ok (fpa : Fpa) (dexID : Pubkey)
    (ctx : Context)
    (h : InitAccount.try_accounts ctx.accounts dexID = none) :
    OpenOrdersPda.init_open_orders fpa dexID ctx =
      ({ ctx with
          accounts :=
            ((ctx.accounts.drop 2).set 1
              (OpenOrdersPda.prepare_pda
                ((ctx.accounts.drop 2).getD 0 default))).set 4
              { ((ctx.accounts.drop 2).set 1
                  (OpenOrdersPda.prepare_pda
                    ((ctx.accounts.drop 2).getD 0 default))).getD 4 default
                  with is_signer := true }
          seeds := ctx.seeds ++
            [open_orders_authority_seeds_with_bump
              (ctx.accounts.getD 4 default).key
              (ctx.accounts.getD 3 default).key
              (fpa [openOrdersTag, (ctx.accounts.getD 4 default).key.bytes,
                (ctx.accounts.getD 3 default).key.bytes] ctx.program_id).2,
             open_orders_init_authority_seeds_with_bump
              (ctx.accounts.getD 4 default).key
              (fpa [openOrdersInitTag,
                (ctx.accounts.getD 4 default).key.bytes] ctx.program_id).2] },
        none) := by
  simp [OpenOrdersPda.init_open_orders, h]

/-- Success of `init_open_orders` means its account validation passed. -/
theorem init_ok_try_accounts (fpa : Fpa) (dexID : Pubkey) (ctx : Context)
    (h : (OpenOrdersPda.init_open_orders fpa dexID ctx).2 = none) :
    InitAccount.try_accounts ctx.accounts dexID = none := by
  cases htry : InitAccount.try_accounts ctx.accounts dexID with
  | none => rfl
  | some e => simp [OpenOrdersPda.init_open_orders, htry] at h

/-! Claim theorems. -/

/-- C1: for each of the five non-init request kinds (NewOrderV3,
CancelOrderV2, CancelOrderByClientIdV2, SettleFunds, CloseOpenOrders), if
the schema-designated caller slot (index 7, 4, 4, 2, 1 respectively) does
not carry the signer flag, the OpenOrdersPda handler returns the
`UnauthorizedUser` error and the context is left unmodified: the accounts
list and the seeds list are exactly as they were before the call. -/
theorem openOrdersPda_unsigned_caller_rejects_unchanged (fpa : Fpa)
    (ctx : Context) :
    (8 ≤ ctx.accounts.length →
      (ctx.accounts.getD 7 default).is_signer = false →
      OpenOrdersPda.new_order_v3 fpa ctx =
        (ctx, some ErrorCode.UnauthorizedUser)) ∧
    (5 ≤ ctx.accounts.length →
      (ctx.accounts.getD 4 default).is_signer = false →
      OpenOrdersPda.cancel_order_v2 fpa ctx =
        (ctx, some ErrorCode.UnauthorizedUser)) ∧
    (5 ≤ ctx.accounts.length →
      (ctx.accounts.getD 4 default).is_signer = false →
      OpenOrdersPda.cancel_order_by_client_id_v2 fpa ctx =
        (ctx, some ErrorCode.UnauthorizedUser)) ∧
    (3 ≤ ctx.accounts.length →
      (ctx.accounts.getD 2 default).is_signer = false →
      OpenOrdersPda.settle_funds fpa ctx =
        (ctx, some ErrorCode.UnauthorizedUser)) ∧
    (4 ≤ ctx.accounts.length →
      (ctx.accounts.getD 1 default).is_signer = false →
      OpenOrdersPda.close_open_orders fpa ctx =
        (ctx, some ErrorCode.UnauthorizedUser)) := by
  refine ⟨fun _ h => ?_, fun _ h => ?_, fun _ h => ?_, fun _ h => ?_,
    fun _ h => ?_⟩ <;>
    simp only [List.getD_eq_getElem?_getD] at h
  · simp [OpenOrdersPda.new_order_v3, h]
  · simp [OpenOrdersPda.cancel_order_v2, h]
  · simp [OpenOrdersPda.cancel_order_by_client_id_v2, h]
  · simp [OpenOrdersPda.settle_funds, h]
  · simp [OpenOrdersPda.close_open_orders, h]

/-- Witness for C1: on a concrete ten-slot context with no signer flags, all
five handlers reject with `UnauthorizedUser` and return the context
unchanged. -/
theorem openOrdersPda_unsigned_caller_rejects_unchanged_witness :
    OpenOrdersPda.new_order_v3 fpaC ctxUnsigned =
      (ctxUnsigned, some ErrorCode.UnauthorizedUser) ∧
    OpenOrdersPda.cancel_order_v2 fpaC ctxUnsigned =
      (ctxUnsigned, some ErrorCode.UnauthorizedUser) ∧
    OpenOrdersPda.cancel_order_by_client_id_v2 fpaC ctxUnsigned =
      (ctxUnsigned, some ErrorCode.UnauthorizedUser) ∧
    OpenOrdersPda.settle_funds fpaC ctxUnsigned =
      (ctxUnsigned, some ErrorCode.UnauthorizedUser) ∧
    OpenOrdersPda.close_open_orders fpaC ctxUnsigned =
      (ctxUnsigned, some ErrorCode.UnauthorizedUser) :=
  ⟨(openOrdersPda_unsigned_caller_rejects_unchanged fpaC ctxUnsigned).1
      (by decide) (by decide),
   (openOrdersPda_unsigned_caller_rejects_unchanged fpaC ctxUnsigned).2.1
      (by decide) (by decide),
   (openOrdersPda_unsigned_caller_rejects_unchanged fpaC ctxUnsigned).2.2.1
      (by decide) (by decide),
   (openOrdersPda_unsigned_caller_rejects_unchanged fpaC ctxUnsigned).2.2.2.1
      (by decide) (by decide),
   (openOrdersPda_unsigned_caller_rejects_unchanged fpaC ctxUnsigned).2.2.2.2
      (by decide) (by decide)⟩

/-- C6: for every request kind, if fewer account slots are supplied than the
kind's positional schema requires, the dispatcher returns `NotEnoughAccounts`
with the context exactly as supplied — no middleware has run, so no
middleware mutation of the context has happened. -/
theorem dispatcher_undersupply_not_enough_accounts
    (mws : List MarketMiddleware) (ctx : Context) (ix : Instruction)
    (h : ctx.accounts.length < requiredAccounts ix) :
    MarketProxy.run mws ctx ix = (ctx, some ErrorCode.NotEnoughAccounts) := by
  simp [MarketProxy.run, h]

/-- Witness for C6: a two-slot context dispatched as SettleFunds through a
chain holding the Logger yields `NotEnoughAccounts` unchanged. -/
theorem dispatcher_undersupply_not_enough_accounts_witness :
    MarketProxy.run [Logger.mw] ctxShort Instruction.SettleFunds =
      (ctxShort, some ErrorCode.NotEnoughAccounts) :=
  dispatcher_undersupply_not_enough_accounts [Logger.mw] ctxShort
    Instruction.SettleFunds (by decide)

/-- C8: an InitAccount request whose caller slot (index 3) does not carry
the signer flag fails with `UnauthorizedUser` (account validation modelled
from the spec, which prescribes `UnauthorizedUser` for an unsigned caller
slot on every request kind). -/
theorem init_open_orders_unsigned_caller_rejected (fpa : Fpa)
    (dexID : Pubkey) (ctx : Context) (hlen : 7 ≤ ctx.accounts.length)
    (h : (ctx.accounts.getD 3 default).is_signer = false) :
    OpenOrdersPda.init_open_orders fpa dexID ctx =
      (ctx, some ErrorCode.UnauthorizedUser) := by
  have htry : InitAccount.try_accounts ctx.accounts dexID =
      some ErrorCode.UnauthorizedUser := by
    simp only [List.getD_eq_getElem?_getD] at h
    simp [InitAccount.try_accounts, h, Nat.not_lt.mpr hlen]
  simp [OpenOrdersPda.init_open_orders, htry]

/-- Witness for C8: the concrete seven-slot InitAccount context whose caller
slot is unsigned is rejected with `UnauthorizedUser`, context unchanged. -/
theorem init_open_orders_unsigned_caller_rejected_witness :
    OpenOrdersPda.init_open_orders fpaC dexIDC ctxInitUnsigned =
      (ctxInitUnsigned, some ErrorCode.UnauthorizedUser) :=
  init_open_orders_unsigned_caller_rejected fpaC dexIDC ctxInitUnsigned
    (by decide) (by decide)

/-- C9: for every request kind and every context, the Logger middleware
returns success and leaves the context completely unchanged — accounts,
seeds and remaining payload included. -/
theorem logger_is_noop (ctx : Context) (ix : Instruction) :
    dispatchOne Logger.mw ctx ix = (ctx, none) := by
  cases ix <;> rfl

/-- Counterexample to C2 as stated: on a fully signed concrete context,
`new_order_v3` succeeds, yet the custody (open-orders) slot 1 is not
overwritten with a signed copy of the caller slot 7 — it still holds its
original, unsigned account: the substitution runs in the opposite
direction. -/
theorem custody_slot_not_overwritten_counterexample :
    (OpenOrdersPda.new_order_v3 fpaC ctxSigned).2 = none ∧
    (OpenOrdersPda.new_order_v3 fpaC ctxSigned).1.accounts.getD 1 default ≠
      OpenOrdersPda.prepare_pda (ctxSigned.accounts.getD 7 default) ∧
    (OpenOrdersPda.new_order_v3 fpaC ctxSigned).1.accounts.getD 1 default =
      ctxSigned.accounts.getD 1 default := by decide

/-- C2 amended: for each of the five non-init request kinds, on success the
middleware overwrites the CALLER slot with a signed copy of the custody
(open-orders) slot — accounts is set at index 7 from index 1 for NewOrderV3,
at 4 from 3 for the two cancels, at 2 from 1 for SettleFunds, and at 1 from
0 for CloseOpenOrders — leaving the custody slot itself as it was. -/
theorem caller_slot_overwritten_with_signed_custody (fpa : Fpa)
    (ctx : Context) :
    (8 ≤ ctx.accounts.length →
      (ctx.accounts.getD 7 default).is_signer = true →
      (OpenOrdersPda.new_order_v3 fpa ctx).1.accounts =
        ctx.accounts.set 7
          (OpenOrdersPda.prepare_pda (ctx.accounts.getD 1 default))) ∧
    (5 ≤ ctx.accounts.length →
      (ctx.accounts.getD 4 default).is_signer = true →
      (OpenOrdersPda.cancel_order_v2 fpa ctx).1.accounts =
        ctx.accounts.set 4
          (OpenOrdersPda.prepare_pda (ctx.accounts.getD 3 default))) ∧
    (5 ≤ ctx.accounts.length →
      (ctx.accounts.getD 4 default).is_signer = true →
      (OpenOrdersPda.cancel_order_by_client_id_v2 fpa ctx).1.accounts =
        ctx.accounts.set 4
          (OpenOrdersPda.prepare_pda (ctx.accounts.getD 3 default))) ∧
    (3 ≤ ctx.accounts.length →
      (ctx.accounts.getD 2 default).is_signer = true →
      (OpenOrdersPda.settle_funds fpa ctx).1.accounts =
        ctx.accounts.set 2
          (OpenOrdersPda.prepare_pda (ctx.accounts.getD 1 default))) ∧
    (4 ≤ ctx.accounts.length →
      (ctx.accounts.getD 1 default).is_signer = true →
      (OpenOrdersPda.close_open_orders fpa ctx).1.accounts =
        ctx.accounts.set 1
          (OpenOrdersPda.prepare_pda (ctx.accounts.getD 0 default))) := by
  refine ⟨fun _ h => ?_, fun _ h => ?_, fun _ h => ?_, fun _ h => ?_,
    fun _ h => ?_⟩
  · rw [new_order_v3_eq_of_signer fpa ctx h]
  · rw [cancel_order_v2_eq_of_signer fpa ctx h]
  · rw [cancel_order_by_client_id_v2_eq_of_signer fpa ctx h]
  · rw [settle_funds_eq_of_signer fpa ctx h]
  · rw [close_open_orders_eq_of_signer fpa ctx h]

/-- Witness for the amended C2: the five substitutions on the concrete fully
signed ten-slot context. -/
theorem caller_slot_overwritten_with_signed_custody_witness :
    (OpenOrdersPda.new_order_v3 fpaC ctxSigned).1.accounts =
      ctxSigned.accounts.set 7
        (OpenOrdersPda.prepare_pda (ctxSigned.accounts.getD 1 default)) ∧
    (OpenOrdersPda.cancel_order_v2 fpaC ctxSigned).1.accounts =
      ctxSigned.accounts.set 4
        (OpenOrdersPda.prepare_pda (ctxSigned.accounts.getD 3 default)) ∧
    (OpenOrdersPda.cancel_order_by_client_id_v2 fpaC ctxSigned).1.accounts =
      ctxSigned.accounts.set 4
        (OpenOrdersPda.prepare_pda (ctxSigned.accounts.getD 3 default)) ∧
    (OpenOrdersPda.settle_funds fpaC ctxSigned).1.accounts =
      ctxSigned.accounts.set 2
        (OpenOrdersPda.prepare_pda (ctxSigned.accounts.getD 1 default)) ∧
    (OpenOrdersPda.close_open_orders fpaC ctxSigned).1.accounts =
      ctxSigned.accounts.set 1
        (OpenOrdersPda.prepare_pda (ctxSigned.accounts.getD 0 default)) :=
  ⟨(caller_slot_overwritten_with_signed_custody fpaC ctxSigned).1
      (by decide) (by decide),
   (caller_slot_overwritten_with_signed_custody fpaC ctxSigned).2.1
      (by decide) (by decide),
   (caller_slot_overwritten_with_signed_custody fpaC ctxSigned).2.2.1
      (by decide) (by decide),
   (caller_slot_overwritten_with_signed_custody fpaC ctxSigned).2.2.2.1
      (by decide) (by decide),
   (caller_slot_overwritten_with_signed_custody fpaC ctxSigned).2.2.2.2
      (by decide) (by decide)⟩

/-- C3: for each of the five non-init request kinds, when the caller slot is
signed, the handler appends exactly one seed set, the four-component
sequence [b"open-orders", market slot key bytes, caller slot key bytes,
[bump]] with the bump recomputed on that call as the canonical bump
`find_program_address([b"open-orders", market, caller], program_id).1` —
never drawn from caller input. -/
theorem openOrdersPda_appends_recomputed_seed_set (fpa : Fpa)
    (ctx : Context) :
    (8 ≤ ctx.accounts.length →
      (ctx.accounts.getD 7 default).is_signer = true →
      (OpenOrdersPda.new_order_v3 fpa ctx).1.seeds = ctx.seeds ++
        [[openOrdersTag, (ctx.accounts.getD 0 default).key.bytes,
          (ctx.accounts.getD 7 default).key.bytes,
          [(fpa [openOrdersTag, (ctx.accounts.getD 0 default).key.bytes,
            (ctx.accounts.getD 7 default).key.bytes] ctx.program_id).2]]]) ∧
    (5 ≤ ctx.accounts.length →
      (ctx.accounts.getD 4 default).is_signer = true →
      (OpenOrdersPda.cancel_order_v2 fpa ctx).1.seeds = ctx.seeds ++
        [[openOrdersTag, (ctx.accounts.getD 0 default).key.bytes,
          (ctx.accounts.getD 4 default).key.bytes,
          [(fpa [openOrdersTag, (ctx.accounts.getD 0 default).key.bytes,
            (ctx.accounts.getD 4 default).key.bytes] ctx.program_id).2]]]) ∧
    (5 ≤ ctx.accounts.length →
      (ctx.accounts.getD 4 default).is_signer = true →
      (OpenOrdersPda.cancel_order_by_client_id_v2 fpa ctx).1.seeds =
        ctx.seeds ++
        [[openOrdersTag, (ctx.accounts.getD 0 default).key.bytes,
          (ctx.accounts.getD 4 default).key.bytes,
          [(fpa [openOrdersTag, (ctx.accounts.getD 0 default).key.bytes,
            (ctx.accounts.getD 4 default).key.bytes] ctx.program_id).2]]]) ∧
    (3 ≤ ctx.accounts.length →
      (ctx.accounts.getD 2 default).is_signer = true →
      (OpenOrdersPda.settle_funds fpa ctx).1.seeds = ctx.seeds ++
        [[openOrdersTag, (ctx.accounts.getD 0 default).key.bytes,
          (ctx.accounts.getD 2 default).key.bytes,
          [(fpa [openOrdersTag, (ctx.accounts.getD 0 default).key.bytes,
            (ctx.accounts.getD 2 default).key.bytes] ctx.program_id).2]]]) ∧
    (4 ≤ ctx.accounts.length →
      (ctx.accounts.getD 1 default).is_signer = true →
      (OpenOrdersPda.close_open_orders fpa ctx).1.seeds = ctx.seeds ++
        [[openOrdersTag, (ctx.accounts.getD 3 default).key.bytes,
          (ctx.accounts.getD 1 default).key.bytes,
          [(fpa [openOrdersTag, (ctx.accounts.getD 3 default).key.bytes,
            (ctx.accounts.getD 1 default).key.bytes] ctx.program_id).2]]]) := by
  refine ⟨fun _ h => ?_, fun _ h => ?_, fun _ h => ?_, fun _ h => ?_,
    fun _ h => ?_⟩
  · rw [new_order_v3_eq_of_signer fpa ctx h]
    simp [open_orders_authority_seeds]
  · rw [cancel_order_v2_eq_of_signer fpa ctx h]
    simp [open_orders_authority_seeds]
  · rw [cancel_order_by_client_id_v2_eq_of_signer fpa ctx h]
    simp [open_orders_authority_seeds]
  · rw [settle_funds_eq_of_signer fpa ctx h]
    simp [open_orders_authority_seeds]
  · rw [close_open_orders_eq_of_signer fpa ctx h]
    simp [open_orders_authority_seeds]

/-- Witness for C3: the appended seed set of `new_order_v3` on the concrete
signed context, with the concrete derivation function. -/
theorem openOrdersPda_appends_recomputed_seed_set_witness :
    (OpenOrdersPda.new_order_v3 fpaC ctxSigned).1.seeds = ctxSigned.seeds ++
      [[openOrdersTag, (ctxSigned.accounts.getD 0 default).key.bytes,
        (ctxSigned.accounts.getD 7 default).key.bytes,
        [(fpaC [openOrdersTag, (ctxSigned.accounts.getD 0 default).key.bytes,
          (ctxSigned.accounts.getD 7 default).key.bytes]
          ctxSigned.program_id).2]]] :=
  (openOrdersPda_appends_recomputed_seed_set fpaC ctxSigned).1
    (by decide) (by decide)

/-- Counterexample to C7 as stated: the enforcement flag is the literal
`false` in the code, so on a concrete context whose beneficiary slot 9
differs from the configured beneficiary, `ReferralFees::settle_funds`
succeeds instead of returning `InvalidReferral`: no configuration of the
shipped middleware makes the referral check active. -/
theorem referral_mismatch_accepted_counterexample :
    (ctxSigned.accounts.getD 9 default).key ≠ referralC.referral ∧
    ReferralFees.settle_funds referralC ctxSigned = (ctxSigned, none) := by
  decide

/-- C7 amended: the referral policy is hard-disabled (`enabled = false` in
the source), so the ReferralFees middleware always succeeds and never
mutates the context: on SettleFunds it returns `Ok` whatever address the
beneficiary slot holds, and on every other request kind it runs the default
no-op handler. -/
theorem referralFees_always_succeeds (self : ReferralFees) (ctx : Context)
    (ix : Instruction) :
    ReferralFees.settle_funds self ctx = (ctx, none) ∧
    dispatchOne (ReferralFees.mw self) ctx ix = (ctx, none) := by
  constructor
  · simp [ReferralFees.settle_funds]
  · cases ix <;>
      simp [dispatchOne, ReferralFees.mw, ReferralFees.settle_funds]

/-- Counterexample to C4 as stated: on the concrete seven-slot InitAccount
context the run succeeds, yet the resulting accounts list is not the input
list with its first two slots removed — the proxy-signing substitutions also
change two of the remaining slots. -/
theorem init_accounts_not_plain_drop_counterexample :
    (OpenOrdersPda.init_open_orders fpaC dexIDC ctxInit).2 = none ∧
    (OpenOrdersPda.init_open_orders fpaC dexIDC ctxInit).1.accounts ≠
      ctxInit.accounts.drop 2 := by decide

/-- C4 amended: on a successful InitAccount run with market slot 4 and
caller slot 3, the middleware appends exactly the two seed sets
[b"open-orders", M, U, [bump]] then [b"open-orders-init", M, [bump2]], the
bumps recomputed as the canonical bumps of their seeds, and the resulting
accounts list is the input list with its first two slots removed, further
modified by the proxy-signing substitutions: slot 1 replaced by a signed
copy of the custody slot (input slot 2) and slot 4's signer flag set. -/
theorem init_seeds_and_account_drop (fpa : Fpa) (dexID : Pubkey)
    (ctx : Context)
    (h : (OpenOrdersPda.init_open_orders fpa dexID ctx).2 = none) :
    (OpenOrdersPda.init_open_orders fpa dexID ctx).1.seeds = ctx.seeds ++
      [[openOrdersTag, (ctx.accounts.getD 4 default).key.bytes,
        (ctx.accounts.getD 3 default).key.bytes,
        [(fpa [openOrdersTag, (ctx.accounts.getD 4 default).key.bytes,
          (ctx.accounts.getD 3 default).key.bytes] ctx.program_id).2]],
       [openOrdersInitTag, (ctx.accounts.getD 4 default).key.bytes,
        [(fpa [openOrdersInitTag, (ctx.accounts.getD 4 default).key.bytes]
          ctx.program_id).2]]] ∧
    (OpenOrdersPda.init_open_orders fpa dexID ctx).1.accounts.length =
      ctx.accounts.length - 2 ∧
    (OpenOrdersPda.init_open_orders fpa dexID ctx).1.accounts =
      ((ctx.accounts.drop 2).set 1
        (OpenOrdersPda.prepare_pda (ctx.accounts.getD 2 default))).set 4
        { ctx.accounts.getD 6 default with is_signer := true } := by
  have htry := init_ok_try_accounts fpa dexID ctx h
  rw [init_open_orders_eq_of_ok fpa dexID ctx htry]
  have h0 : (ctx.accounts.drop 2).getD 0 default =
      ctx.accounts.getD 2 default := getD_drop ctx.accounts 2 0
  have h4 : ((ctx.accounts.drop 2).set 1
      (OpenOrdersPda.prepare_pda ((ctx.accounts.drop 2).getD 0 default))).getD
        4 default = ctx.accounts.getD 6 default := by
    rw [getD_set_ne _ _ _ _ (by decide), getD_drop]
  refine ⟨?_, ?_, ?_⟩
  · simp [open_orders_authority_seeds_with_bump,
      open_orders_init_authority_seeds_with_bump]
  · simp
  · rw [h4, h0]

/-- Witness for the amended C4: the seed sets and the account-list shape of
the successful run on the concrete seven-slot InitAccount context. -/
theorem init_seeds_and_account_drop_witness :
    (OpenOrdersPda.init_open_orders fpaC dexIDC ctxInit).1.seeds =
      ctxInit.seeds ++
      [[openOrdersTag, (ctxInit.accounts.getD 4 default).key.bytes,
        (ctxInit.accounts.getD 3 default).key.bytes,
        [(fpaC [openOrdersTag, (ctxInit.accounts.getD 4 default).key.bytes,
          (ctxInit.accounts.getD 3 default).key.bytes]
          ctxInit.program_id).2]],
       [openOrdersInitTag, (ctxInit.accounts.getD 4 default).key.bytes,
        [(fpaC [openOrdersInitTag, (ctxInit.accounts.getD 4 default).key.bytes]
          ctxInit.program_id).2]]] ∧
    (OpenOrdersPda.init_open_orders fpaC dexIDC ctxInit).1.accounts.length =
      ctxInit.accounts.length - 2 :=
  ⟨(init_seeds_and_account_drop fpaC dexIDC ctxInit (by decide)).1,
   (init_seeds_and_account_drop fpaC dexIDC ctxInit (by decide)).2.1⟩

/-- Counterexample to C5 as stated: on the successful concrete InitAccount
run, the custody slot (post-drop slot 0) does NOT carry a signer flag set by
the middleware, while slot 4 — the init-authority slot, unsigned on input —
DOES have its signer flag newly set; so the proxy-signed slots are not "the
custody slot and the caller slot". -/
theorem init_signer_slots_counterexample :
    (OpenOrdersPda.init_open_orders fpaC dexIDC ctxInit).2 = none ∧
    ((OpenOrdersPda.init_open_orders fpaC dexIDC
      ctxInit).1.accounts.getD 0 default).is_signer = false ∧
    (ctxInit.accounts.getD 6 default).is_signer = false ∧
    ((OpenOrdersPda.init_open_orders fpaC dexIDC
      ctxInit).1.accounts.getD 4 default).is_signer = true := by decide

/-- C5 amended: on a successful InitAccount run, after the two leading slots
are dropped the slots with signer flags newly set by the middleware are slot
1 (overwritten with a signed copy of the custody slot, input slot 2) and
slot 4 (the init-authority slot, input slot 6); the custody slot 0 and the
remaining slots are carried over unchanged. -/
theorem init_signer_marked_slots (fpa : Fpa) (dexID : Pubkey) (ctx : Context)
    (h : (OpenOrdersPda.init_open_orders fpa dexID ctx).2 = none) :
    (OpenOrdersPda.init_open_orders fpa dexID ctx).1.accounts.getD 0 default =
      ctx.accounts.getD 2 default ∧
    (OpenOrdersPda.init_open_orders fpa dexID ctx).1.accounts.getD 1 default =
      OpenOrdersPda.prepare_pda (ctx.accounts.getD 2 default) ∧
    (OpenOrdersPda.init_open_orders fpa dexID ctx).1.accounts.getD 2 default =
      ctx.accounts.getD 4 default ∧
    (OpenOrdersPda.init_open_orders fpa dexID ctx).1.accounts.getD 3 default =
      ctx.accounts.getD 5 default ∧
    (OpenOrdersPda.init_open_orders fpa dexID ctx).1.accounts.getD 4 default =
      { ctx.accounts.getD 6 default with is_signer := true } ∧
    (∀ i, 5 ≤ i →
      (OpenOrdersPda.init_open_orders fpa dexID ctx).1.accounts.getD i default =
        ctx.accounts.getD (i + 2) default) := by
  have htry := init_ok_try_accounts fpa dexID ctx h
  have hlen := try_accounts_ok_length ctx.accounts dexID htry
  have hd2 : 5 ≤ (ctx.accounts.drop 2).length := by
    simp only [List.length_drop]
    omega
  rw [init_open_orders_eq_of_ok fpa dexID ctx htry]
  have h0 : (ctx.accounts.drop 2).getD 0 default =
      ctx.accounts.getD 2 default := getD_drop ctx.accounts 2 0
  refine ⟨?_, ?_, ?_, ?_, ?_, fun i hi => ?_⟩
  · rw [getD_set_ne _ _ _ _ (by decide), getD_set_ne _ _ _ _ (by decide),
      getD_drop]
  · rw [getD_set_ne _ _ _ _ (by decide),
      getD_set_self _ _ _ (by omega), h0]
  · rw [getD_set_ne _ _ _ _ (by decide), getD_set_ne _ _ _ _ (by decide),
      getD_drop]
  · rw [getD_set_ne _ _ _ _ (by decide), getD_set_ne _ _ _ _ (by decide),
      getD_drop]
  · rw [getD_set_self _ _ _ (by simp; omega),
      getD_set_ne _ _ _ _ (by decide), getD_drop]
  · rw [getD_set_ne _ _ _ _ (by omega), getD_set_ne _ _ _ _ (by omega),
      getD_drop, Nat.add_comm]

/-- Witness for the amended C5: the five slot equations of the successful
run on the concrete seven-slot InitAccount context. -/
theorem init_signer_marked_slots_witness :
    (OpenOrdersPda.init_open_orders fpaC dexIDC
      ctxInit).1.accounts.getD 0 default = ctxInit.accounts.getD 2 default ∧
    (OpenOrdersPda.init_open_orders fpaC dexIDC
      ctxInit).1.accounts.getD 1 default =
      OpenOrdersPda.prepare_pda (ctxInit.accounts.getD 2 default) ∧
    (OpenOrdersPda.init_open_orders fpaC dexIDC
      ctxInit).1.accounts.getD 4 default =
      { ctxInit.accounts.getD 6 default with is_signer := true } :=
  ⟨(init_signer_marked_slots fpaC dexIDC ctxInit (by decide)).1,
   (init_signer_marked_slots fpaC dexIDC ctxInit (by decide)).2.1,
   (init_signer_marked_slots fpaC dexIDC ctxInit (by decide)).2.2.2.2.1⟩

/-- C10: for each of the five non-init request kinds, a successful
OpenOrdersPda call preserves the program id, the payload and the length of
the accounts list, leaves every account slot other than the single
overwritten caller slot unchanged (in particular the source open-orders
slot keeps its original flags), and extends the seeds list by exactly one
appended seed set, leaving the previously accumulated seed sets in place. -/
theorem openOrdersPda_success_frame (fpa : Fpa) (ctx : Context) :
    (8 ≤ ctx.accounts.length →
      (ctx.accounts.getD 7 default).is_signer = true →
      framePreserved (OpenOrdersPda.new_order_v3 fpa ctx) ctx 7) ∧
    (5 ≤ ctx.accounts.length →
      (ctx.accounts.getD 4 default).is_signer = true →
      framePreserved (OpenOrdersPda.cancel_order_v2 fpa ctx) ctx 4) ∧
    (5 ≤ ctx.accounts.length →
      (ctx.accounts.getD 4 default).is_signer = true →
      framePreserved (OpenOrdersPda.cancel_order_by_client_id_v2 fpa ctx)
        ctx 4) ∧
    (3 ≤ ctx.accounts.length →
      (ctx.accounts.getD 2 default).is_signer = true →
      framePreserved (OpenOrdersPda.settle_funds fpa ctx) ctx 2) ∧
    (4 ≤ ctx.accounts.length →
      (ctx.accounts.getD 1 default).is_signer = true →
      framePreserved (OpenOrdersPda.close_open_orders fpa ctx) ctx 1) := by
  refine ⟨fun _ h => ?_, fun _ h => ?_, fun _ h => ?_, fun _ h => ?_,
    fun _ h => ?_⟩
  · rw [new_order_v3_eq_of_signer fpa ctx h]
    exact framePreserved_of_set ctx 7 _ _
  · rw [cancel_order_v2_eq_of_signer fpa ctx h]
    exact framePreserved_of_set ctx 4 _ _
  · rw [cancel_order_by_client_id_v2_eq_of_signer fpa ctx h]
    exact framePreserved_of_set ctx 4 _ _
  · rw [settle_funds_eq_of_signer fpa ctx h]
    exact framePreserved_of_set ctx 2 _ _
  · rw [close_open_orders_eq_of_signer fpa ctx h]
    exact framePreserved_of_set ctx 1 _ _

/-- Witness for C10: the frame predicate holds for all five handlers on the
concrete fully signed ten-slot context. -/
theorem openOrdersPda_success_frame_witness :
    framePreserved (OpenOrdersPda.new_order_v3 fpaC ctxSigned) ctxSigned 7 ∧
    framePreserved (OpenOrdersPda.cancel_order_v2 fpaC ctxSigned)
      ctxSigned 4 ∧
    framePreserved (OpenOrdersPda.cancel_order_by_client_id_v2 fpaC ctxSigned)
      ctxSigned 4 ∧
    framePreserved (OpenOrdersPda.settle_funds fpaC ctxSigned) ctxSigned 2 ∧
    framePreserved (OpenOrdersPda.close_open_orders fpaC ctxSigned)
      ctxSigned 1 :=
  ⟨(openOrdersPda_success_frame fpaC ctxSigned).1 (by decide) (by decide),
   (openOrdersPda_success_frame fpaC ctxSigned).2.1 (by decide) (by decide),
   (openOrdersPda_success_frame fpaC ctxSigned).2.2.1 (by decide) (by decide),
   (openOrdersPda_success_frame fpaC ctxSigned).2.2.2.1
      (by decide) (by decide),
   (openOrdersPda_success_frame fpaC ctxSigned).2.2.2.2
      (by decide) (by decide)⟩

end AnchorDex
